import Mathlib

/-!
# Verification of the iberdrola-monitor session/auth lifecycle and renewal scheduler

Shallow embedding of the Python sources:
- `iberdrola_auth.py` (`IberdrolaAuth`): token validity, refresh, PKCE generation.
- `iberdrola_api.py` (`IberdrolaAPI`): header construction and the authenticated
  request gateway with its single refresh-and-retry recovery.
- `bot_monitor.py` (`MonitorCargadores`): the auth-failure callback and the
  reservation auto-renewal loop.

Conventions:
- Timestamps are `Int` seconds; `datetime.now()` becomes an explicit `now` argument.
- Python `None` becomes `Option.none`.  Python truthiness of a token string
  (`if not self.access_token:`) is modelled by `truthy`, which is false for both
  `none` and the empty string, exactly as in Python.
- HTTP traffic is an explicit environment: each outbound request is answered by
  an oracle (`HttpResult` for token-endpoint POSTs, a status function for
  gateway requests).  `requests` exceptions on the token endpoint are the
  `networkError` case; a missing `access_token` key or an unparsable body is the
  `none` body / `none` field case (both raise in Python and are caught).  An
  `expires_in` value that is present but null/ill-typed (`ExpiresIn.malformed`)
  makes the `timedelta` call raise only after the token assignments, and the
  oracle's `saveOk` flag decides whether the final `_save_tokens` write
  succeeds — the two failure paths that leave the session partially updated.
- The persisted token file (`_save_tokens`) is the `store` field of `Session`;
  a successful refresh writes it, every failure path leaves it untouched.
-/

/-- Contents of the persisted token file `data/auth_tokens.json`
(`IberdrolaAuth._save_tokens`). -/
structure TokenFile where
  access_token : Option String
  refresh_token : Option String
  id_token : Option String
  token_expiry : Option Int
deriving DecidableEq, Repr

/-- In-memory state of `IberdrolaAuth`: the token fields plus the persisted
store written by `_save_tokens`. -/
structure Session where
  accessToken : Option String
  refreshToken : Option String
  idToken : Option String
  tokenExpiry : Option Int
  store : TokenFile
deriving DecidableEq, Repr

/-- Python truthiness of an optional string: `None` and `""` are falsy.
Models checks such as `if not self.access_token:` and `if self.refresh_token:`. -/
def truthy : Option String → Bool
  | none => false
  | some s => !s.isEmpty

/-- `IberdrolaAuth.is_token_valid`: false when the access token is falsy or no
expiry is set; otherwise `datetime.now() < token_expiry - timedelta(seconds=30)`. -/
def is_token_valid (st : Session) (now : Int) : Bool :=
  match st.tokenExpiry with
  | none => false
  | some e => truthy st.accessToken && decide (now < e - 30)

/-- `MonitorCargadores._on_auth_failure`: the auth-failure callback registered
with the API gateway.  Clears `access_token` and `token_expiry`, keeps
`refresh_token` ("Mantenemos refresh_token por si aún sirve"), touches nothing
else and does not persist. -/
def on_auth_failure (st : Session) : Session :=
  { st with accessToken := none, tokenExpiry := none }

/-- The `expires_in` value of a token response: the key may be absent
(`data.get("expires_in", 360)` yields the default), a well-typed number, or
present but null/ill-typed — in that last case
`timedelta(seconds=data.get("expires_in", 360))` raises `TypeError`, and it
does so only *after* the three token assignments have run. -/
inductive ExpiresIn where
  | missing
  | num (e : Int)
  | malformed
deriving DecidableEq, Repr

/-- Parsed JSON body of a token-endpoint response.  A `none` string field
models a key missing from the dict (`data["access_token"]` would raise
`KeyError`, `data.get(...)` would return the default). -/
structure TokenResponse where
  access_token : Option String
  refresh_token : Option String
  id_token : Option String
  expires_in : ExpiresIn
deriving DecidableEq, Repr

/-- Environment of one refresh attempt: a transport-level exception, or a
response with a status code, an optional parsed JSON body (`none` body =
`resp.json()` raised), and whether the `_save_tokens` write that a successful
parse would perform succeeds (`saveOk = false` models an I/O error —
`os.makedirs`/`open` raising before any byte is written — caught by the same
`except` after the in-memory session was already fully updated). -/
inductive HttpResult where
  | networkError
  | response (status : Nat) (body : Option TokenResponse) (saveOk : Bool)
deriving DecidableEq, Repr

/-- `IberdrolaAuth.refresh_access_token`: early-returns `False` when the
refresh token is falsy; POSTs the refresh grant; `raise_for_status` turns any
4xx/5xx into the exception handler (`return False`), as do an unparsable body
and a body without `access_token` — all before any assignment.  Then, in
source order: `access_token`, `refresh_token` (old one kept unless the server
returned one) and `id_token` are assigned; next
`token_expiry = now + data.get("expires_in", 360)` is computed — an ill-typed
`expires_in` raises here, failing with the three tokens already replaced —
and finally `_save_tokens` runs, whose failure leaves the whole in-memory
session updated but the store untouched. -/
def refresh_access_token (st : Session) (now : Int) (r : HttpResult) : Bool × Session :=
  if !truthy st.refreshToken then (false, st)
  else
    match r with
    | .networkError => (false, st)
    | .response status body saveOk =>
      if 400 ≤ status then (false, st)
      else
        match body with
        | none => (false, st)
        | some data =>
          match data.access_token with
          | none => (false, st)
          | some tok =>
            let st1 : Session :=
              { st with
                accessToken := some tok
                refreshToken :=
                  match data.refresh_token with
                  | some rt => some rt
                  | none => st.refreshToken
                idToken := data.id_token }
            match data.expires_in with
            | .malformed => (false, st1)
            | .missing =>
              let st2 : Session := { st1 with tokenExpiry := some (now + 360) }
              if saveOk then
                (true, { st2 with store :=
                  { access_token := st2.accessToken
                    refresh_token := st2.refreshToken
                    id_token := st2.idToken
                    token_expiry := st2.tokenExpiry } })
              else (false, st2)
            | .num e =>
              let st2 : Session := { st1 with tokenExpiry := some (now + e) }
              if saveOk then
                (true, { st2 with store :=
                  { access_token := st2.accessToken
                    refresh_token := st2.refreshToken
                    id_token := st2.idToken
                    token_expiry := st2.tokenExpiry } })
              else (false, st2)

/-- `IberdrolaAuth.get_access_token`: returns the access token when valid, else
refreshes when a refresh token is truthy, else `None`.  The third component
counts invocations of `refresh_access_token` made inside this call. -/
def get_access_token (st : Session) (now : Int) (r : HttpResult) :
    Option String × Session × Nat :=
  if is_token_valid st now then (st.accessToken, st, 0)
  else if truthy st.refreshToken then
    let rr := refresh_access_token st now r
    if rr.1 then (rr.2.accessToken, rr.2, 1) else (none, rr.2, 1)
  else (none, st, 0)

/-- Request headers built by `IberdrolaAPI._get_headers`, restricted to the
fields that vary per call: the `Authorization` value (`none` = header absent,
as happens when an authenticated request cannot obtain a token), the random
per-request `c-rid`, and the optional coordinate headers. -/
structure Headers where
  authorization : Option String
  crid : String
  numLat : Option String
  numLon : Option String
deriving DecidableEq, Repr

/-- Python truthiness of an optional number (`if lat and lon:`): `None` and `0`
are falsy. -/
def intTruthy : Option Int → Bool
  | none => false
  | some v => decide (v ≠ 0)

/-- `IberdrolaAPI._get_headers`: copies the base headers, stamps a fresh
`c-rid` (here a parameter, the randomness), adds `numLat`/`numLon` when both
coordinates are truthy, and fills `Authorization`: for an authenticated call
with an auth manager it asks `get_access_token` (which may itself refresh) and
attaches `Bearer <token>` only when the token is truthy; otherwise the header
is set to the empty string.  Returns the headers, the possibly-refreshed
session and the number of refresh invocations performed. -/
def get_headers (authenticated : Bool) (hasAuthManager : Bool) (st : Session)
    (now : Int) (r : HttpResult) (crid : String) (lat lon : Option Int) :
    Headers × Session × Nat :=
  let latH : Option String :=
    if intTruthy lat && intTruthy lon then lat.map (fun v => toString v) else none
  let lonH : Option String :=
    if intTruthy lat && intTruthy lon then lon.map (fun v => toString v) else none
  let base : Headers := { authorization := none, crid := crid, numLat := latH, numLon := lonH }
  if authenticated && hasAuthManager then
    let gat := get_access_token st now r
    match gat.1 with
    | some t =>
      if !t.isEmpty then
        ({ base with authorization := some ("Bearer " ++ t) }, gat.2.1, gat.2.2)
      else (base, gat.2.1, gat.2.2)
    | none => (base, gat.2.1, gat.2.2)
  else ({ base with authorization := some "" }, st, 0)

/-- Headers of `IberdrolaAPI.obtener_detalles_cargador`, the public
charger-details query: it always calls `_get_headers(authenticated=False)`. -/
def obtener_detalles_cargador_headers (hasAuthManager : Bool) (st : Session)
    (now : Int) (r : HttpResult) (crid : String) (lat lon : Option Int) : Headers :=
  (get_headers false hasAuthManager st now r crid lat lon).1

/-- `AUTH_ERROR_CODES` from `IberdrolaAPI._authenticated_request`: 401, 403 and
500 are all treated as authentication-failure signals. -/
def AUTH_ERROR_CODES : List Nat := [401, 403, 500]

/-- Environment of one `_authenticated_request` call: the status code answered
to the k-th HTTP attempt of this call, the token-endpoint answer to the k-th
refresh POST, and whether an `on_auth_failure` callback is registered. -/
structure GatewayEnv where
  httpStatus : Nat → Nat
  refreshResp : Nat → HttpResult
  hasCallback : Bool

/-- Observable outcome of one `_authenticated_request` call.  `refreshCalls`
counts every invocation of `refresh_access_token` (including those made
transparently by `get_access_token` while attaching the token);
`gatewayRefreshCalls` counts only the gateway's own recovery call on line 111
of `iberdrola_api.py`.  `retryAuth = some a` records that a retry request was
sent with Authorization value `a`. -/
structure GatewayOutcome where
  result : Option Nat
  finalState : Session
  httpAttempts : Nat
  refreshCalls : Nat
  gatewayRefreshCalls : Nat
  callbackCalls : Nat
  retryAuth : Option (Option String)
deriving Repr

/-- First header construction of an `_authenticated_request` call (the
`_get_headers(authenticated=True, ...)` before the first attempt). -/
def gwFirst (st : Session) (now : Int) (env : GatewayEnv) (crid1 : String)
    (lat lon : Option Int) : Headers × Session × Nat :=
  get_headers true true st now (env.refreshResp 0) crid1 lat lon

/-- `IberdrolaAPI._authenticated_request` (auth manager present, every HTTP
attempt answered with a status code): build headers (which may transparently
refresh), send; if the status is in `AUTH_ERROR_CODES` then: with a truthy
refresh token, call `refresh_access_token` once; on success rebuild headers and
retry once; if the retried status is again in the set, or the refresh failed,
or there was no truthy refresh token, invoke the registered callback and return
`None`.  A non-auth error status makes `raise_for_status` raise: the handler
returns `None` without invoking the callback.  Otherwise the parsed JSON is
returned (modelled by the status code of the successful response). -/
def authenticated_request (st : Session) (now : Int) (env : GatewayEnv)
    (crid1 crid2 : String) (lat lon : Option Int) : GatewayOutcome :=
  let g0 := gwFirst st now env crid1 lat lon
  let st0 := g0.2.1
  let r0 := g0.2.2
  let s0 := env.httpStatus 0
  let cb : Nat := if env.hasCallback then 1 else 0
  if s0 ∈ AUTH_ERROR_CODES then
    if truthy st0.refreshToken then
      let rr := refresh_access_token st0 now (env.refreshResp r0)
      if rr.1 then
        let g1 := get_headers true true rr.2 now (env.refreshResp (r0 + 1)) crid2 lat lon
        let s1 := env.httpStatus 1
        if s1 ∈ AUTH_ERROR_CODES then
          { result := none, finalState := g1.2.1, httpAttempts := 2,
            refreshCalls := r0 + 1 + g1.2.2, gatewayRefreshCalls := 1,
            callbackCalls := cb, retryAuth := some g1.1.authorization }
        else if 400 ≤ s1 then
          { result := none, finalState := g1.2.1, httpAttempts := 2,
            refreshCalls := r0 + 1 + g1.2.2, gatewayRefreshCalls := 1,
            callbackCalls := 0, retryAuth := some g1.1.authorization }
        else
          { result := some s1, finalState := g1.2.1, httpAttempts := 2,
            refreshCalls := r0 + 1 + g1.2.2, gatewayRefreshCalls := 1,
            callbackCalls := 0, retryAuth := some g1.1.authorization }
      else
        { result := none, finalState := rr.2, httpAttempts := 1,
          refreshCalls := r0 + 1, gatewayRefreshCalls := 1,
          callbackCalls := cb, retryAuth := none }
    else
      { result := none, finalState := st0, httpAttempts := 1,
        refreshCalls := r0, gatewayRefreshCalls := 0,
        callbackCalls := cb, retryAuth := none }
  else if 400 ≤ s0 then
    { result := none, finalState := st0, httpAttempts := 1,
      refreshCalls := r0, gatewayRefreshCalls := 0,
      callbackCalls := 0, retryAuth := none }
  else
    { result := some s0, finalState := st0, httpAttempts := 1,
      refreshCalls := r0, gatewayRefreshCalls := 0,
      callbackCalls := 0, retryAuth := none }

/-- The base64url alphabet used by `base64.urlsafe_b64encode`. -/
def b64Alphabet : List Char :=
  "ABCDEFGHIJKLMNOPQRSTUVWXYZabcdefghijklmnopqrstuvwxyz0123456789-_".data

/-- Character for a 6-bit group. -/
def b64Char (n : Nat) : Char :=
  b64Alphabet.getD n 'A'

/-- `base64.urlsafe_b64encode` on a byte list, including the `=` padding. -/
def base64url : List Nat → List Char
  | [] => []
  | [b1] => [b64Char (b1 / 4), b64Char (b1 % 4 * 16), '=', '=']
  | [b1, b2] => [b64Char (b1 / 4), b64Char (b1 % 4 * 16 + b2 / 16), b64Char (b2 % 16 * 4), '=']
  | b1 :: b2 :: b3 :: rest =>
    b64Char (b1 / 4) :: b64Char (b1 % 4 * 16 + b2 / 16) ::
      b64Char (b2 % 16 * 4 + b3 / 64) :: b64Char (b3 % 64) :: base64url rest

/-- `bytes.rstrip(b'=')`: drop every trailing `=`. -/
def rstripEq : List Char → List Char
  | [] => []
  | c :: cs =>
    let rest := rstripEq cs
    if rest = [] ∧ c = '=' then [] else c :: rest

/-- 32-bit truncation. -/
def w32 (n : Nat) : Nat := n % 4294967296

/-- Right rotation of a 32-bit word (argument assumed `< 2^32`). -/
def rotr32 (n x : Nat) : Nat := x / 2 ^ n + x % 2 ^ n * 2 ^ (32 - n)

/-- Logical right shift. -/
def shr32 (n x : Nat) : Nat := x / 2 ^ n

/-- SHA-256 big sigma-0. -/
def bsig0 (x : Nat) : Nat := rotr32 2 x ^^^ rotr32 13 x ^^^ rotr32 22 x

/-- SHA-256 big sigma-1. -/
def bsig1 (x : Nat) : Nat := rotr32 6 x ^^^ rotr32 11 x ^^^ rotr32 25 x

/-- SHA-256 small sigma-0. -/
def ssig0 (x : Nat) : Nat := rotr32 7 x ^^^ rotr32 18 x ^^^ shr32 3 x

/-- SHA-256 small sigma-1. -/
def ssig1 (x : Nat) : Nat := rotr32 17 x ^^^ rotr32 19 x ^^^ shr32 10 x

/-- SHA-256 choice function (complement via xor with the 32-bit mask). -/
def sha256ch (x y z : Nat) : Nat := (x &&& y) ^^^ ((x ^^^ 4294967295) &&& z)

/-- SHA-256 majority function. -/
def sha256maj (x y z : Nat) : Nat := (x &&& y) ^^^ (x &&& z) ^^^ (y &&& z)

/-- SHA-256 round constants. -/
def sha256K : List Nat :=
  [1116352408, 1899447441, 3049323471, 3921009573, 961987163, 1508970993,
   2453635748, 2870763221, 3624381080, 310598401, 607225278, 1426881987,
   1925078388, 2162078206, 2614888103, 3248222580, 3835390401, 4022224774,
   264347078, 604807628, 770255983, 1249150122, 1555081692, 1996064986,
   2554220882, 2821834349, 2952996808, 3210313671, 3336571891, 3584528711,
   113926993, 338241895, 666307205, 773529912, 1294757372, 1396182291,
   1695183700, 1986661051, 2177026350, 2456956037, 2730485921, 2820302411,
   3259730800, 3345764771, 3516065817, 3600352804, 4094571909, 275423344,
   430227734, 506948616, 659060556, 883997877, 958139571, 1322822218,
   1537002063, 1747873779, 1955562222, 2024104815, 2227730452, 2361852424,
   2428436474, 2756734187, 3204031479, 3329325298]

/-- SHA-256 initial hash value. -/
def sha256H0 : List Nat :=
  [1779033703, 3144134277, 1013904242, 2773480762,
   1359893119, 2600822924, 528734635, 1541459225]

/-- Merkle–Damgård padding: append `0x80`, zeros to 56 mod 64, and the 8-byte
big-endian bit length. -/
def sha256pad (msg : List Nat) : List Nat :=
  let L := msg.length
  let k := (119 - L % 64) % 64
  msg ++ [128] ++ List.replicate k 0 ++
    (List.range 8).map (fun i => 8 * L / 2 ^ (8 * (7 - i)) % 256)

/-- Split a byte list into 64-byte blocks. -/
def chunks64 (l : List Nat) : List (List Nat) :=
  if h : l = [] then []
  else l.take 64 :: chunks64 (l.drop 64)
termination_by l.length
decreasing_by
  simp only [List.length_drop]
  have : l.length ≠ 0 := fun hh => h (List.length_eq_zero.mp hh)
  omega

/-- Big-endian 32-bit words from bytes. -/
def bytesToWords : List Nat → List Nat
  | b1 :: b2 :: b3 :: b4 :: rest =>
    (b1 * 16777216 + b2 * 65536 + b3 * 256 + b4) :: bytesToWords rest
  | _ => []

/-- The 64-entry message schedule of one block. -/
def sha256schedule (ws : List Nat) : List Nat :=
  (List.range 64).foldl
    (fun acc t =>
      if t < 16 then acc ++ [ws.getD t 0]
      else acc ++ [w32 (ssig1 (acc.getD (t - 2) 0) + acc.getD (t - 7) 0 +
        ssig0 (acc.getD (t - 15) 0) + acc.getD (t - 16) 0)]) []

/-- Compression of one 64-byte block into the running hash (8 words). -/
def sha256compress (h : List Nat) (block : List Nat) : List Nat :=
  let w := sha256schedule (bytesToWords block)
  let init := (h.getD 0 0, h.getD 1 0, h.getD 2 0, h.getD 3 0,
               h.getD 4 0, h.getD 5 0, h.getD 6 0, h.getD 7 0)
  let step := fun (s : Nat × Nat × Nat × Nat × Nat × Nat × Nat × Nat) (t : Nat) =>
    let (a, b, c, d, e, f, g, hh) := s
    let t1 := w32 (hh + bsig1 e + sha256ch e f g + sha256K.getD t 0 + w.getD t 0)
    let t2 := w32 (bsig0 a + sha256maj a b c)
    (w32 (t1 + t2), a, b, c, w32 (d + t1), e, f, g)
  let fin := (List.range 64).foldl step init
  [w32 (h.getD 0 0 + fin.1), w32 (h.getD 1 0 + fin.2.1), w32 (h.getD 2 0 + fin.2.2.1),
   w32 (h.getD 3 0 + fin.2.2.2.1), w32 (h.getD 4 0 + fin.2.2.2.2.1),
   w32 (h.getD 5 0 + fin.2.2.2.2.2.1), w32 (h.getD 6 0 + fin.2.2.2.2.2.2.1),
   w32 (h.getD 7 0 + fin.2.2.2.2.2.2.2)]

/-- Big-endian bytes of a 32-bit word. -/
def wordToBytes (x : Nat) : List Nat :=
  [x / 16777216 % 256, x / 65536 % 256, x / 256 % 256, x % 256]

/-- `hashlib.sha256(...).digest()` as a byte list. -/
def sha256 (msg : List Nat) : List Nat :=
  (((chunks64 (sha256pad msg)).foldl sha256compress sha256H0).map wordToBytes).flatten

/-- UTF-8 bytes of a string; the strings hashed here (base64url alphabet) are
ASCII, for which `str.encode('utf-8')` is the code points. -/
def strBytes (s : String) : List Nat :=
  s.data.map Char.toNat

/-- `secrets.token_urlsafe(n)` given the `n` random bytes `rnd` that
`os.urandom` produced: base64url-encode and strip the padding. -/
def token_urlsafe (rnd : List Nat) : String :=
  String.mk (rstripEq (base64url rnd))

/-- Number of random bytes requested by `IberdrolaAuth._generate_pkce`:
`secrets.token_urlsafe(32)`. -/
def pkceEntropyByteCount : Nat := 32

/-- `IberdrolaAuth._generate_pkce` given the random bytes drawn by
`secrets.token_urlsafe`: `code_verifier = token_urlsafe(rnd)`,
`code_challenge = urlsafe_b64encode(sha256(verifier.encode())).rstrip(b'=')`.
Returns `(code_verifier, code_challenge)`. -/
def generate_pkce (rnd : List Nat) : String × String :=
  let verifier := token_urlsafe rnd
  let challenge := String.mk (rstripEq (base64url (sha256 (strBytes verifier))))
  (verifier, challenge)

/-- `self.RENEW_INTERVAL_MINUTES = 14` in `MonitorCargadores.__init__`. -/
def RENEW_INTERVAL_MINUTES : Int := 14

/-- The sleep requested each cycle: `RENEW_INTERVAL_MINUTES * 60` seconds. -/
def renewIntervalSeconds : Int := RENEW_INTERVAL_MINUTES * 60

/-- Relevant fields of the `get_transaction_in_progress` answer.  A falsy
answer (`None` or an empty dict) is `Option.none` at the use site. -/
structure Txn where
  chargeInProgress : Bool
  reservationInProgress : Bool
deriving DecidableEq, Repr

/-- One connector row of `obtener_estado_conectores`. -/
structure Conector where
  physicalSocketId : Int
  status : String
deriving DecidableEq, Repr

/-- The `for c in conectores or []` scan in `_auto_renew_loop`: the socket is
available when some row has the reserved socket id with status `AVAILABLE`. -/
def socketAvailable (conectores : Option (List Conector)) (socketId : Int) : Bool :=
  (conectores.getD []).any
    (fun c => c.physicalSocketId == socketId && c.status == "AVAILABLE")

/-- Environment of one `_ejecutar_reserva_silenciosa` call: truthiness of
`get_payment_method`, truthiness of `get_order_id`, the boolean returned by
`process_reservation_payment`, and whether `reserve_charger` returned non-None. -/
structure SilentEnv where
  paymentOk : Bool
  orderOk : Bool
  paymentSuccess : Bool
  reserveOk : Bool
deriving DecidableEq, Repr

/-- Result of `_ejecutar_reserva_silenciosa` plus how many times each external
call was made during it. -/
structure SilentOut where
  ok : Bool
  paymentCalls : Nat
  orderCalls : Nat
  payExecCalls : Nat
  reserveCalls : Nat
deriving DecidableEq, Repr

/-- `MonitorCargadores._ejecutar_reserva_silenciosa`: fetch payment method,
then order id, then execute the payment, then create the reservation; the
first falsy step returns `False` and later steps are not attempted. -/
def ejecutar_reserva_silenciosa (e : SilentEnv) : SilentOut :=
  if !e.paymentOk then ⟨false, 1, 0, 0, 0⟩
  else if !e.orderOk then ⟨false, 1, 1, 0, 0⟩
  else if !e.paymentSuccess then ⟨false, 1, 1, 1, 0⟩
  else ⟨e.reserveOk, 1, 1, 1, 1⟩

/-- The mutable auto-renew state of `MonitorCargadores`: `auto_renew_active`,
the reserved charge point, and `auto_renew_next_time`. -/
structure RenewJob where
  active : Bool
  cuprId : Int
  socketId : Int
  nextRenewalAt : Int
deriving DecidableEq, Repr

/-- User notifications sent with `_send_notification` inside the renewal loop
(best-effort; a send is attempted exactly once per listed entry). -/
inductive Note where
  | chargeStarted
  | reservationGone
  | socketUnavailable
  | renewed (next : Int)
  | renewFailed
deriving DecidableEq, Repr

/-- What one executed cycle body did: job state afterwards, the notifications
sent, how many `cancel_reservation` and `reserve_charger` calls were made, and
whether the loop `break`s after this body. -/
structure CycleOut where
  job : RenewJob
  notes : List Note
  cancelCalls : Nat
  reserveCalls : Nat
  brk : Bool
deriving DecidableEq, Repr

/-- Environment of one timer cycle: the transaction answer, the connector
re-query after cancelling, the silent re-reservation environment, and two
non-negative real-time durations — `workDelay`, the time from the timer firing
to the `datetime.now()` read that stamps a successful renewal (it includes the
fixed 2-second settle sleep), and `postDelay`, the remaining time until the
next `asyncio.sleep` begins (notification sending etc.). -/
structure CycleEnv where
  transaction : Option Txn
  conectores : Option (List Conector)
  silent : SilentEnv
  workDelay : Int
  postDelay : Int
deriving DecidableEq, Repr

/-- Body of one iteration of `_auto_renew_loop` after the sleep, firing at
time `fire` with job state `job` (`auto_renew_active` is re-checked by the
loop head, not here).  Order as in the source: charging in progress stops the
job with one notification and no cancel/reserve call; a falsy transaction or
no `reservationInProgress` stops with one notification; otherwise the current
reservation is cancelled (result ignored), the socket availability re-checked,
and either the job stops (socket gone), or `_ejecutar_reserva_silenciosa`
runs: success stamps `nextRenewalAt = now + 14min` where `now` is
`fire + workDelay`, failure stops the job. -/
def renewCycleBody (job : RenewJob) (fire : Int) (e : CycleEnv) : CycleOut :=
  match e.transaction with
  | some t =>
    if t.chargeInProgress then
      { job := { job with active := false }, notes := [Note.chargeStarted],
        cancelCalls := 0, reserveCalls := 0, brk := true }
    else if !t.reservationInProgress then
      { job := { job with active := false }, notes := [Note.reservationGone],
        cancelCalls := 0, reserveCalls := 0, brk := true }
    else if !socketAvailable e.conectores job.socketId then
      { job := { job with active := false }, notes := [Note.socketUnavailable],
        cancelCalls := 1, reserveCalls := 0, brk := true }
    else
      let s := ejecutar_reserva_silenciosa e.silent
      if s.ok then
        { job := { job with nextRenewalAt := fire + e.workDelay + renewIntervalSeconds },
          notes := [Note.renewed (fire + e.workDelay + renewIntervalSeconds)],
          cancelCalls := 1, reserveCalls := s.reserveCalls, brk := false }
      else
        { job := { job with active := false }, notes := [Note.renewFailed],
          cancelCalls := 1, reserveCalls := s.reserveCalls, brk := true }
  | none =>
    { job := { job with active := false }, notes := [Note.reservationGone],
      cancelCalls := 0, reserveCalls := 0, brk := true }

/-- Trace entry for one executed cycle: when its sleep began, when the timer
fired (`sleepStart + 14min`, the exact requested sleep), the cycle environment
and what the body did. -/
structure CycleRecord where
  sleepStart : Int
  fire : Int
  env : CycleEnv
  out : CycleOut
deriving DecidableEq, Repr

/-- `MonitorCargadores._auto_renew_loop` as a trace over a list of cycle
environments: while `auto_renew_active`, sleep exactly 14 minutes, run the
body, and continue only when the body did not `break`; the next sleep starts
after the body's total duration `workDelay + postDelay`. -/
def autoRenewLoop (job : RenewJob) (sleepStart : Int) : List CycleEnv → List CycleRecord
  | [] => []
  | e :: rest =>
    if job.active then
      { sleepStart := sleepStart, fire := sleepStart + renewIntervalSeconds, env := e,
        out := renewCycleBody job (sleepStart + renewIntervalSeconds) e } ::
        (if (renewCycleBody job (sleepStart + renewIntervalSeconds) e).brk then []
         else
           autoRenewLoop (renewCycleBody job (sleepStart + renewIntervalSeconds) e).job
             (sleepStart + renewIntervalSeconds + e.workDelay + e.postDelay) rest)
    else []

/-- The timer-safety chain: the first fire is no earlier than the
`nextRenewalAt` in force when its sleep began, and so on down the trace. -/
def firesNoEarlier (prevNext : Int) : List CycleRecord → Bool
  | [] => true
  | r :: rest => decide (prevNext ≤ r.fire) && firesNoEarlier r.out.job.nextRenewalAt rest

/-- Session with a non-null but empty access token, refuting C4 as stated. -/
def c4State : Session :=
  { accessToken := some "", refreshToken := none, idToken := none,
    tokenExpiry := some 100,
    store := { access_token := none, refresh_token := none,
               id_token := none, token_expiry := none } }

/-- The 32 zero bytes used as a concrete random draw in the C9 theorems. -/
def c9Zeros : List Nat := List.replicate pkceEntropyByteCount 0

/-- Session state after the first header construction of a gateway call. -/
def gwSt0 (st : Session) (now : Int) (env : GatewayEnv) (crid1 : String)
    (lat lon : Option Int) : Session :=
  (gwFirst st now env crid1 lat lon).2.1

/-- Refresh invocations made by the first header construction. -/
def gwR0 (st : Session) (now : Int) (env : GatewayEnv) (crid1 : String)
    (lat lon : Option Int) : Nat :=
  (gwFirst st now env crid1 lat lon).2.2

/-- The gateway's own recovery call to `refresh_access_token`
(line 111 of `iberdrola_api.py`). -/
def gwRecovery (st : Session) (now : Int) (env : GatewayEnv) (crid1 : String)
    (lat lon : Option Int) : Bool × Session :=
  refresh_access_token (gwSt0 st now env crid1 lat lon) now
    (env.refreshResp (gwR0 st now env crid1 lat lon))

/-- Header construction for the retry after a successful recovery refresh. -/
def gwRetryHeaders (st : Session) (now : Int) (env : GatewayEnv) (crid1 crid2 : String)
    (lat lon : Option Int) : Headers × Session × Nat :=
  get_headers true true (gwRecovery st now env crid1 lat lon).2 now
    (env.refreshResp (gwR0 st now env crid1 lat lon + 1)) crid2 lat lon

/-- Token-endpoint answer used by the concrete gateway environments. -/
def c2Resp : TokenResponse :=
  { access_token := some "newtok", refresh_token := some "rt2",
    id_token := some "id", expires_in := ExpiresIn.num 360 }

/-- Gateway environment of an always-401 server whose token endpoint always
grants a fresh token, with the callback registered. -/
def c2Env : GatewayEnv :=
  { httpStatus := fun _ => 401,
    refreshResp := fun _ => HttpResult.response 200 (some c2Resp) true,
    hasCallback := true }

/-- Gateway environment refuting C1 as stated: always-401 server; the first
refresh POST succeeds but grants `expires_in = 0`, inside the 30-second
validity buffer; the second refresh POST — which the retry's header
construction makes because the freshly granted token is already "expired" —
hits a network error. -/
def c1CexEnv : GatewayEnv :=
  { httpStatus := fun _ => 401,
    refreshResp := fun k =>
      if k = 0 then
        HttpResult.response 200
          (some { access_token := some "newtok", refresh_token := some "rt",
                  id_token := none, expires_in := ExpiresIn.num 0 }) true
      else HttpResult.networkError,
    hasCallback := true }

/-- Session whose access token is valid at time 0. -/
def w1State : Session :=
  { accessToken := some "tok", refreshToken := some "rt", idToken := none,
    tokenExpiry := some 1000,
    store := { access_token := none, refresh_token := none,
               id_token := none, token_expiry := none } }

/-- Session with an expired access token but a usable refresh token. -/
def c2CexState : Session :=
  { accessToken := some "expired", refreshToken := some "rt", idToken := none,
    tokenExpiry := some 0,
    store := { access_token := none, refresh_token := none,
               id_token := none, token_expiry := none } }

/-- Concrete one-cycle environment where charging is reported in progress. -/
def w7Env : CycleEnv :=
  { transaction := some { chargeInProgress := true, reservationInProgress := true },
    conectores := some [{ physicalSocketId := 2, status := "AVAILABLE" }],
    silent := { paymentOk := true, orderOk := true, paymentSuccess := true, reserveOk := true },
    workDelay := 2, postDelay := 0 }

/-- Concrete active renewal job. -/
def w7Job : RenewJob := { active := true, cuprId := 1, socketId := 2, nextRenewalAt := 840 }

/-- Concrete one-cycle environment where the payment execution fails. -/
def w8Env : CycleEnv :=
  { transaction := some { chargeInProgress := false, reservationInProgress := true },
    conectores := some [{ physicalSocketId := 2, status := "AVAILABLE" }],
    silent := { paymentOk := true, orderOk := true, paymentSuccess := false, reserveOk := true },
    workDelay := 2, postDelay := 0 }

/-- Concrete one-cycle environment for a successful renewal. -/
def w6Env : CycleEnv :=
  { transaction := some { chargeInProgress := false, reservationInProgress := true },
    conectores := some [{ physicalSocketId := 2, status := "AVAILABLE" }],
    silent := { paymentOk := true, orderOk := true, paymentSuccess := true, reserveOk := true },
    workDelay := 2, postDelay := 1 }

/-- The single trace record of `autoRenewLoop w7Job 0 [w6Env]`. -/
def w6Record : CycleRecord :=
  { sleepStart := 0, fire := 0 + renewIntervalSeconds, env := w6Env,
    out := renewCycleBody w7Job (0 + renewIntervalSeconds) w6Env }

/-! ## Lemmas and claim theorems -/

lemma b64Alphabet_length : b64Alphabet.length = 64 := by decide

lemma b64Char_ne_pad (n : Nat) : b64Char n ≠ '=' := by
  have hall : ∀ m : Fin 64, b64Char m.val ≠ '=' := by decide
  by_cases h : n < 64
  · exact hall ⟨n, h⟩
  · unfold b64Char
    rw [List.getD_eq_default]
    · decide
    · rw [b64Alphabet_length]
      omega

lemma rstripEq_append (xs ys : List Char) (h : rstripEq ys ≠ []) :
    rstripEq (xs ++ ys) = xs ++ rstripEq ys := by
  induction xs with
  | nil => simp
  | cons c cs ih =>
    have hne : rstripEq (cs ++ ys) ≠ [] := by
      rw [ih]
      simp [h]
    simp only [List.cons_append]
    rw [show rstripEq (c :: (cs ++ ys)) =
      if rstripEq (cs ++ ys) = [] ∧ c = '=' then [] else c :: rstripEq (cs ++ ys) from rfl]
    rw [if_neg (fun hc => hne hc.1), ih]

theorem rstripEq_base64url_length : ∀ bs : List Nat, bs.length % 3 = 2 →
    (rstripEq (base64url bs)).length = 4 * (bs.length / 3) + 3
  | [], h => by simp at h
  | [b1], h => by simp at h
  | [b1, b2], h => by
    simp [base64url, rstripEq, b64Char_ne_pad]
  | b1 :: b2 :: b3 :: rest, h => by
    have h3 : rest.length % 3 = 2 := by
      simp only [List.length_cons] at h
      omega
    have ihlen := rstripEq_base64url_length rest h3
    have hne : rstripEq (base64url rest) ≠ [] := by
      intro hc
      rw [hc] at ihlen
      simp at ihlen
    have hb : base64url (b1 :: b2 :: b3 :: rest) =
        [b64Char (b1 / 4), b64Char (b1 % 4 * 16 + b2 / 16),
         b64Char (b2 % 16 * 4 + b3 / 64), b64Char (b3 % 64)] ++ base64url rest := by
      simp [base64url]
    rw [hb, rstripEq_append _ _ hne, List.length_append, ihlen]
    simp only [List.length_cons, List.length_nil]
    omega

lemma truthy_of_valid (st : Session) (now : Int) (h : is_token_valid st now = true) :
    truthy st.accessToken = true := by
  unfold is_token_valid at h
  cases he : st.tokenExpiry with
  | none => rw [he] at h; exact absurd h (by simp)
  | some e =>
    rw [he] at h
    exact (Bool.and_eq_true _ _ |>.mp h).1

lemma get_headers_valid (st : Session) (now : Int) (r : HttpResult) (crid : String)
    (lat lon : Option Int) (hval : is_token_valid st now = true) :
    (get_headers true true st now r crid lat lon).1.authorization =
      some ("Bearer " ++ st.accessToken.getD "") ∧
    (get_headers true true st now r crid lat lon).2.1 = st ∧
    (get_headers true true st now r crid lat lon).2.2 = 0 := by
  have ht := truthy_of_valid st now hval
  cases hat : st.accessToken with
  | none => rw [hat] at ht; simp [truthy] at ht
  | some t =>
    rw [hat] at ht
    have hne : t.isEmpty = false := by
      simpa [truthy] using ht
    simp [get_headers, get_access_token, hval, hat, hne]

lemma authenticated_request_le_two (st : Session) (now : Int) (env : GatewayEnv)
    (crid1 crid2 : String) (lat lon : Option Int) :
    (authenticated_request st now env crid1 crid2 lat lon).httpAttempts ≤ 2 := by
  unfold authenticated_request
  by_cases h0 : env.httpStatus 0 ∈ AUTH_ERROR_CODES
  · by_cases hrt : truthy (gwFirst st now env crid1 lat lon).2.1.refreshToken
    · by_cases hok : (refresh_access_token (gwFirst st now env crid1 lat lon).2.1 now
          (env.refreshResp (gwFirst st now env crid1 lat lon).2.2)).1
      · by_cases h1 : env.httpStatus 1 ∈ AUTH_ERROR_CODES
        · simp [h0, hrt, hok, h1]
        · by_cases h4 : 400 ≤ env.httpStatus 1
          · simp [h0, hrt, hok, h1, h4]
          · simp [h0, hrt, hok, h1, h4]
      · simp [h0, hrt, hok]
    · simp [h0, hrt]
  · by_cases h40 : 400 ≤ env.httpStatus 0
    · simp [h0, h40]
    · simp [h0, h40]

lemma silent_fail (e : SilentEnv)
    (h : e.paymentOk = false ∨ e.orderOk = false ∨ e.paymentSuccess = false ∨
      e.reserveOk = false) :
    (ejecutar_reserva_silenciosa e).ok = false := by
  rcases e with ⟨p, o, ps, ro⟩
  cases p <;> cases o <;> cases ps <;> cases ro <;> simp_all [ejecutar_reserva_silenciosa]

lemma renewCycleBody_continue (job : RenewJob) (fire : Int) (e : CycleEnv)
    (h : (renewCycleBody job fire e).brk = false) :
    (renewCycleBody job fire e).job.nextRenewalAt =
      fire + e.workDelay + renewIntervalSeconds ∧
    (renewCycleBody job fire e).job.active = job.active := by
  unfold renewCycleBody at h ⊢
  cases htx : e.transaction with
  | none => simp [htx] at h
  | some t =>
    by_cases hch : t.chargeInProgress
    · simp [htx, hch] at h
    · by_cases hres : t.reservationInProgress
      · by_cases hav : socketAvailable e.conectores job.socketId
        · by_cases hok : (ejecutar_reserva_silenciosa e.silent).ok
          · simp [htx, hch, hres, hav, hok]
          · simp [htx, hch, hres, hav, hok] at h
        · simp [htx, hch, hres, hav] at h
      · simp [htx, hch, hres] at h

/-- Claim C4 counterexample: at `accessToken = some ""` (non-null) with
`expiry = 100` and `now = 0` (so `now < expiry - 30s`), the claimed iff says
valid, but `is_token_valid` is false — Python's `if not self.access_token`
also rejects the empty string, not only `None`. -/
theorem token_validity_nonnull_cex :
    c4State.accessToken ≠ none ∧ c4State.tokenExpiry = some 100 ∧
    ((0 : Int) < 100 - 30) ∧ is_token_valid c4State 0 = false :=
  ⟨by decide, rfl, by decide, by decide⟩

/-- Claim C4 (amended): `is_token_valid` is true iff the access token is
non-null and non-empty (truthy), an expiry is set, and `now < expiry - 30`;
this holds for timestamps on either side of the 30-second boundary. -/
theorem token_validity_iff (st : Session) (now : Int) :
    is_token_valid st now = true ↔
      (truthy st.accessToken = true ∧ ∃ e, st.tokenExpiry = some e ∧ now < e - 30) := by
  unfold is_token_valid
  cases he : st.tokenExpiry with
  | none => simp
  | some e => simp [Bool.and_eq_true, decide_eq_true_eq, and_comm]

/-- Claim C5: after the registered auth-failure callback
(`MonitorCargadores._on_auth_failure`) runs, the refresh token is unchanged
(so refreshability is preserved), access token and expiry are null,
`is_token_valid` is false at every time, and no other session field (id token,
persisted store) is modified. -/
theorem auth_invalidation_narrows_scope (st : Session) (now : Int) :
    (on_auth_failure st).refreshToken = st.refreshToken ∧
    (on_auth_failure st).accessToken = none ∧
    (on_auth_failure st).tokenExpiry = none ∧
    is_token_valid (on_auth_failure st) now = false ∧
    truthy (on_auth_failure st).refreshToken = truthy st.refreshToken ∧
    (on_auth_failure st).idToken = st.idToken ∧
    (on_auth_failure st).store = st.store := by
  refine ⟨rfl, rfl, rfl, ?_, rfl, rfl, rfl⟩
  simp [on_auth_failure, is_token_valid]

/-- Claim C10: every unauthenticated (public) request — in particular the
public charger-details query — carries `Authorization: ""`: the bearer token
is never attached, the produced headers are identical for any two session
states, times or refresh environments (given the same request randomness and
coordinates), and the session is not touched and no refresh happens. -/
theorem public_request_no_bearer (st st2 : Session) (ham ham2 : Bool) (now now2 : Int)
    (r r2 : HttpResult) (crid : String) (lat lon : Option Int) :
    obtener_detalles_cargador_headers ham st now r crid lat lon =
      (get_headers false ham st now r crid lat lon).1 ∧
    (get_headers false ham st now r crid lat lon).1.authorization = some "" ∧
    (get_headers false ham st now r crid lat lon).1 =
      (get_headers false ham2 st2 now2 r2 crid lat lon).1 ∧
    (get_headers false ham st now r crid lat lon).2.1 = st ∧
    (get_headers false ham st now r crid lat lon).2.2 = 0 := by
  refine ⟨rfl, ?_, ?_, ?_, ?_⟩ <;> simp [get_headers]

/-- Claim C9 counterexample: `_generate_pkce` draws
`secrets.token_urlsafe(32)` — exactly 32 random bytes, not "at least 43 bytes
of entropy"; the 43-character verifier carries only 32 bytes (256 bits) of
randomness. -/
theorem pkce_entropy_cex :
    pkceEntropyByteCount = 32 ∧ pkceEntropyByteCount < 43 ∧
    (generate_pkce c9Zeros).1.length = 43 :=
  ⟨rfl, by decide, by decide⟩

/-- Claim C9 (amended): for every 32-byte random draw, the stored challenge is
the base64url encoding of the SHA-256 digest of the UTF-8 bytes of the stored
verifier with all `=` padding removed, and the verifier is a string of exactly
43 characters (carrying the 32 bytes = 256 bits of entropy of the draw). -/
theorem pkce_roundtrip (rnd : List Nat) (h : rnd.length = pkceEntropyByteCount) :
    (generate_pkce rnd).2 =
      String.mk (rstripEq (base64url (sha256 (strBytes (generate_pkce rnd).1)))) ∧
    (generate_pkce rnd).1.length = 43 := by
  constructor
  · rfl
  · show (rstripEq (base64url rnd)).length = 43
    rw [rstripEq_base64url_length rnd (by rw [h]; decide), h]
    decide

/-- Witness for C9 at the concrete 32-byte draw of all zeros. -/
theorem pkce_roundtrip_witness :
    c9Zeros.length = pkceEntropyByteCount ∧
    ((generate_pkce c9Zeros).2 =
        String.mk (rstripEq (base64url (sha256 (strBytes (generate_pkce c9Zeros).1)))) ∧
      (generate_pkce c9Zeros).1.length = 43) :=
  ⟨by decide, pkce_roundtrip c9Zeros (by decide)⟩

lemma authenticated_request_retry_err (st : Session) (now : Int) (env : GatewayEnv)
    (crid1 crid2 : String) (lat lon : Option Int)
    (hs0 : env.httpStatus 0 ∈ AUTH_ERROR_CODES)
    (hrt : truthy (gwSt0 st now env crid1 lat lon).refreshToken = true)
    (hok : (gwRecovery st now env crid1 lat lon).1 = true)
    (h1 : env.httpStatus 1 ∈ AUTH_ERROR_CODES) :
    authenticated_request st now env crid1 crid2 lat lon =
      { result := none,
        finalState := (gwRetryHeaders st now env crid1 crid2 lat lon).2.1,
        httpAttempts := 2,
        refreshCalls := gwR0 st now env crid1 lat lon + 1 +
          (gwRetryHeaders st now env crid1 crid2 lat lon).2.2,
        gatewayRefreshCalls := 1,
        callbackCalls := if env.hasCallback then 1 else 0,
        retryAuth := some (gwRetryHeaders st now env crid1 crid2 lat lon).1.authorization } := by
  unfold authenticated_request gwRetryHeaders
  simp only [gwSt0] at hrt
  simp only [gwRecovery, gwSt0, gwR0] at hok
  simp [gwRecovery, gwSt0, gwR0, hs0, hrt, hok, h1]

lemma authenticated_request_retry_common (st : Session) (now : Int) (env : GatewayEnv)
    (crid1 crid2 : String) (lat lon : Option Int)
    (hs0 : env.httpStatus 0 ∈ AUTH_ERROR_CODES)
    (hrt : truthy (gwSt0 st now env crid1 lat lon).refreshToken = true)
    (hok : (gwRecovery st now env crid1 lat lon).1 = true) :
    (authenticated_request st now env crid1 crid2 lat lon).httpAttempts = 2 ∧
    (authenticated_request st now env crid1 crid2 lat lon).gatewayRefreshCalls = 1 ∧
    (authenticated_request st now env crid1 crid2 lat lon).retryAuth =
      some (gwRetryHeaders st now env crid1 crid2 lat lon).1.authorization := by
  unfold authenticated_request gwRetryHeaders
  simp only [gwSt0] at hrt
  simp only [gwRecovery, gwSt0, gwR0] at hok
  by_cases h1 : env.httpStatus 1 ∈ AUTH_ERROR_CODES
  · simp [gwRecovery, gwSt0, gwR0, hs0, hrt, hok, h1]
  · by_cases h4 : 400 ≤ env.httpStatus 1 <;>
      simp [gwRecovery, gwSt0, gwR0, hs0, hrt, hok, h1, h4]

lemma authenticated_request_refresh_failed (st : Session) (now : Int) (env : GatewayEnv)
    (crid1 crid2 : String) (lat lon : Option Int)
    (hs0 : env.httpStatus 0 ∈ AUTH_ERROR_CODES)
    (hrt : truthy (gwSt0 st now env crid1 lat lon).refreshToken = true)
    (hok : (gwRecovery st now env crid1 lat lon).1 = false) :
    authenticated_request st now env crid1 crid2 lat lon =
      { result := none,
        finalState := (gwRecovery st now env crid1 lat lon).2,
        httpAttempts := 1,
        refreshCalls := gwR0 st now env crid1 lat lon + 1,
        gatewayRefreshCalls := 1,
        callbackCalls := if env.hasCallback then 1 else 0,
        retryAuth := none } := by
  unfold authenticated_request
  simp only [gwSt0] at hrt
  simp only [gwRecovery, gwSt0, gwR0] at hok
  simp [gwRecovery, gwSt0, gwR0, hs0, hrt, hok]

lemma authenticated_request_no_rt (st : Session) (now : Int) (env : GatewayEnv)
    (crid1 crid2 : String) (lat lon : Option Int)
    (hs0 : env.httpStatus 0 ∈ AUTH_ERROR_CODES)
    (hrt : truthy (gwSt0 st now env crid1 lat lon).refreshToken = false) :
    authenticated_request st now env crid1 crid2 lat lon =
      { result := none,
        finalState := gwSt0 st now env crid1 lat lon,
        httpAttempts := 1,
        refreshCalls := gwR0 st now env crid1 lat lon,
        gatewayRefreshCalls := 0,
        callbackCalls := if env.hasCallback then 1 else 0,
        retryAuth := none } := by
  unfold authenticated_request
  simp only [gwSt0] at hrt
  simp [gwSt0, gwR0, hs0, hrt]

lemma gwFirst_valid (st : Session) (now : Int) (env : GatewayEnv) (crid1 : String)
    (lat lon : Option Int) (hval : is_token_valid st now = true) :
    gwSt0 st now env crid1 lat lon = st ∧ gwR0 st now env crid1 lat lon = 0 := by
  have h := get_headers_valid st now (env.refreshResp 0) crid1 lat lon hval
  exact ⟨h.2.1, h.2.2⟩

/-- Claim C1 counterexample: starting from a valid session against
`c1CexEnv`, the recovery refresh succeeds and stores the new access token
`"newtok"`, yet the retry request goes out with *no* Authorization header at
all (`retryAuth = some none`): the grant's `expires_in = 0` is inside the
30-second buffer, so the retry's `_get_headers → get_access_token` refreshes
a second time, and that refresh fails.  "Retried exactly once with the new
token" is therefore false as an unconditional statement — the retry itself
still happens exactly once. -/
theorem gateway_retry_stale_token_cex :
    (gwRecovery w1State 0 c1CexEnv "a" none none).1 = true ∧
    (gwRecovery w1State 0 c1CexEnv "a" none none).2.accessToken = some "newtok" ∧
    (authenticated_request w1State 0 c1CexEnv "a" "b" none none).httpAttempts = 2 ∧
    (authenticated_request w1State 0 c1CexEnv "a" "b" none none).retryAuth = some none ∧
    (authenticated_request w1State 0 c1CexEnv "a" "b" none none).retryAuth ≠
      some (some ("Bearer " ++ "newtok")) :=
  ⟨by decide, by decide, by decide, by decide, by decide⟩

/-- Claim C1 (amended): for every authenticated gateway call whose first
response status is in {401, 403, 500} with the callback registered: when the
refresh token is present (truthy) the gateway makes exactly one recovery call
to `refresh_access_token`; if that refresh succeeds the request is retried
exactly once, carrying the new bearer token *provided* the refreshed session
is still valid at the retry (otherwise the retry's header construction
refreshes again and may attach a different token or none — see the
counterexample); if the retried status is again in the set, or the refresh
failed, or no refresh token was present, the registered auth-failure callback
is invoked exactly once and the call returns `None`. -/
theorem gateway_auth_error_recovery (st : Session) (now : Int) (env : GatewayEnv)
    (crid1 crid2 : String) (lat lon : Option Int)
    (hcb : env.hasCallback = true)
    (hs0 : env.httpStatus 0 ∈ AUTH_ERROR_CODES) :
    (truthy (gwSt0 st now env crid1 lat lon).refreshToken = true →
      (authenticated_request st now env crid1 crid2 lat lon).gatewayRefreshCalls = 1) ∧
    (truthy (gwSt0 st now env crid1 lat lon).refreshToken = true →
      (gwRecovery st now env crid1 lat lon).1 = true →
      (authenticated_request st now env crid1 crid2 lat lon).httpAttempts = 2) ∧
    (truthy (gwSt0 st now env crid1 lat lon).refreshToken = true →
      (gwRecovery st now env crid1 lat lon).1 = true →
      is_token_valid (gwRecovery st now env crid1 lat lon).2 now = true →
      (authenticated_request st now env crid1 crid2 lat lon).retryAuth =
        some (some ("Bearer " ++
          ((gwRecovery st now env crid1 lat lon).2.accessToken.getD "")))) ∧
    (truthy (gwSt0 st now env crid1 lat lon).refreshToken = true →
      (gwRecovery st now env crid1 lat lon).1 = true →
      env.httpStatus 1 ∈ AUTH_ERROR_CODES →
      (authenticated_request st now env crid1 crid2 lat lon).callbackCalls = 1 ∧
      (authenticated_request st now env crid1 crid2 lat lon).result = none) ∧
    (truthy (gwSt0 st now env crid1 lat lon).refreshToken = true →
      (gwRecovery st now env crid1 lat lon).1 = false →
      (authenticated_request st now env crid1 crid2 lat lon).callbackCalls = 1 ∧
      (authenticated_request st now env crid1 crid2 lat lon).result = none ∧
      (authenticated_request st now env crid1 crid2 lat lon).httpAttempts = 1) ∧
    (truthy (gwSt0 st now env crid1 lat lon).refreshToken = false →
      (authenticated_request st now env crid1 crid2 lat lon).callbackCalls = 1 ∧
      (authenticated_request st now env crid1 crid2 lat lon).result = none ∧
      (authenticated_request st now env crid1 crid2 lat lon).httpAttempts = 1 ∧
      (authenticated_request st now env crid1 crid2 lat lon).gatewayRefreshCalls = 0) := by
  refine ⟨?_, ?_, ?_, ?_, ?_, ?_⟩
  · intro hrt
    by_cases hok : (gwRecovery st now env crid1 lat lon).1
    · exact (authenticated_request_retry_common st now env crid1 crid2 lat lon
        hs0 hrt hok).2.1
    · rw [authenticated_request_refresh_failed st now env crid1 crid2 lat lon hs0 hrt
        (by simpa using hok)]
  · intro hrt hok
    exact (authenticated_request_retry_common st now env crid1 crid2 lat lon
      hs0 hrt hok).1
  · intro hrt hok hval
    rw [(authenticated_request_retry_common st now env crid1 crid2 lat lon
      hs0 hrt hok).2.2]
    have hg := get_headers_valid (gwRecovery st now env crid1 lat lon).2 now
      (env.refreshResp (gwR0 st now env crid1 lat lon + 1)) crid2 lat lon hval
    unfold gwRetryHeaders
    rw [hg.1]
  · intro hrt hok h1
    rw [authenticated_request_retry_err st now env crid1 crid2 lat lon hs0 hrt hok h1]
    simp [hcb]
  · intro hrt hok
    rw [authenticated_request_refresh_failed st now env crid1 crid2 lat lon hs0 hrt hok]
    simp [hcb]
  · intro hrt
    rw [authenticated_request_no_rt st now env crid1 crid2 lat lon hs0 hrt]
    simp [hcb]

/-- Witness for C1: concrete valid session against an always-401 server with a
succeeding refresh — one recovery refresh, two HTTP attempts, retry with the
new bearer token, callback invoked once, call fails. -/
theorem gateway_auth_error_recovery_witness :
    (authenticated_request w1State 0 c2Env "a" "b" none none).gatewayRefreshCalls = 1 ∧
    (authenticated_request w1State 0 c2Env "a" "b" none none).httpAttempts = 2 ∧
    (authenticated_request w1State 0 c2Env "a" "b" none none).retryAuth =
      some (some ("Bearer " ++ ((gwRecovery w1State 0 c2Env "a" none none).2.accessToken.getD ""))) ∧
    (authenticated_request w1State 0 c2Env "a" "b" none none).callbackCalls = 1 ∧
    (authenticated_request w1State 0 c2Env "a" "b" none none).result = none :=
  have h := gateway_auth_error_recovery w1State 0 c2Env "a" "b" none none rfl (by decide)
  ⟨h.1 (by decide), h.2.1 (by decide) (by decide),
   h.2.2.1 (by decide) (by decide) (by decide),
   (h.2.2.2.1 (by decide) (by decide) (by decide)).1,
   (h.2.2.2.1 (by decide) (by decide) (by decide)).2⟩

/-- Claim C2 counterexample: against the always-401 server `c2Env` (refresh
token present, refreshes succeeding), a call starting from an expired access
token invokes `refresh_access_token` twice — once transparently inside
`_get_headers → get_access_token` while attaching the token and once in the
gateway's recovery — so "the refresh function is invoked exactly once" fails,
although the HTTP request is still attempted exactly twice. -/
theorem gateway_refresh_twice_cex :
    (authenticated_request c2CexState 1000 c2Env "a" "b" none none).refreshCalls = 2 ∧
    ¬ ((authenticated_request c2CexState 1000 c2Env "a" "b" none none).refreshCalls = 1) ∧
    (authenticated_request c2CexState 1000 c2Env "a" "b" none none).httpAttempts = 2 :=
  ⟨by decide, by decide, by decide⟩

/-- Claim C2 (amended): against a server that always answers 401, with a
truthy refresh token, an access token valid at call time (so attaching it
performs no transparent refresh) and a recovery refresh that succeeds and
grants a token valid at the retry, the refresh function is invoked exactly
once and the HTTP request is attempted exactly twice before the call fails;
moreover no gateway call ever makes more than two HTTP attempts (never more
than the single retry). -/
theorem gateway_single_retry_bound (st : Session) (now : Int) (env : GatewayEnv)
    (crid1 crid2 : String) (lat lon : Option Int)
    (hvalid : is_token_valid st now = true)
    (hrt : truthy st.refreshToken = true)
    (h401 : ∀ k, env.httpStatus k = 401)
    (hok : (refresh_access_token st now (env.refreshResp 0)).1 = true)
    (hfresh : is_token_valid (refresh_access_token st now (env.refreshResp 0)).2 now = true) :
    (authenticated_request st now env crid1 crid2 lat lon).refreshCalls = 1 ∧
    (authenticated_request st now env crid1 crid2 lat lon).httpAttempts = 2 ∧
    (authenticated_request st now env crid1 crid2 lat lon).result = none ∧
    (∀ (st' : Session) (now' : Int) (env' : GatewayEnv) (c1 c2 : String)
        (la lo : Option Int),
      (authenticated_request st' now' env' c1 c2 la lo).httpAttempts ≤ 2) := by
  obtain ⟨hst0, hr0⟩ := gwFirst_valid st now env crid1 lat lon hvalid
  have hs0 : env.httpStatus 0 ∈ AUTH_ERROR_CODES := by rw [h401 0]; decide
  have h1 : env.httpStatus 1 ∈ AUTH_ERROR_CODES := by rw [h401 1]; decide
  have hrt' : truthy (gwSt0 st now env crid1 lat lon).refreshToken = true := by
    rw [hst0]; exact hrt
  have hok' : (gwRecovery st now env crid1 lat lon).1 = true := by
    unfold gwRecovery; rw [hst0, hr0]; exact hok
  have hrec2 : (gwRecovery st now env crid1 lat lon).2 =
      (refresh_access_token st now (env.refreshResp 0)).2 := by
    unfold gwRecovery; rw [hst0, hr0]
  have hg1 : (gwRetryHeaders st now env crid1 crid2 lat lon).2.2 = 0 := by
    unfold gwRetryHeaders
    rw [hrec2, hr0]
    exact (get_headers_valid _ now (env.refreshResp (0 + 1)) crid2 lat lon hfresh).2.2
  rw [authenticated_request_retry_err st now env crid1 crid2 lat lon hs0 hrt' hok' h1]
  refine ⟨?_, rfl, rfl, fun st' now' env' c1 c2 la lo =>
    authenticated_request_le_two st' now' env' c1 c2 la lo⟩
  rw [hr0, hg1]

/-- Witness for C2 (amended) at the concrete valid session and always-401
environment. -/
theorem gateway_single_retry_bound_witness :
    (authenticated_request w1State 0 c2Env "a" "b" none none).refreshCalls = 1 ∧
    (authenticated_request w1State 0 c2Env "a" "b" none none).httpAttempts = 2 ∧
    (authenticated_request w1State 0 c2Env "a" "b" none none).result = none :=
  have h := gateway_single_retry_bound w1State 0 c2Env "a" "b" none none
    (by decide) (by decide) (fun k => rfl) (by decide) (by decide)
  ⟨h.1, h.2.1, h.2.2.1⟩

/-- Claim C7: in a cycle where the remote transaction reports
`chargeInProgress`, the loop produces exactly this one record — job stopped
(`active := false`), exactly one notification (`chargeStarted`), zero
`cancel_reservation` and zero `reserve_charger` calls — and exits: no further
cycle runs whatever environments follow. -/
theorem charging_stops_job (job : RenewJob) (t0 : Int) (e : CycleEnv)
    (rest : List CycleEnv) (t : Txn)
    (hact : job.active = true) (htx : e.transaction = some t)
    (hch : t.chargeInProgress = true) :
    autoRenewLoop job t0 (e :: rest) =
      [{ sleepStart := t0, fire := t0 + renewIntervalSeconds, env := e,
         out := { job := { job with active := false }, notes := [Note.chargeStarted],
                  cancelCalls := 0, reserveCalls := 0, brk := true } }] := by
  simp [autoRenewLoop, renewCycleBody, hact, htx, hch]

/-- Witness for C7 at the concrete job and charging environment. -/
theorem charging_stops_job_witness :
    autoRenewLoop w7Job 0 [w7Env] =
      [{ sleepStart := 0, fire := 0 + renewIntervalSeconds, env := w7Env,
         out := { job := { w7Job with active := false }, notes := [Note.chargeStarted],
                  cancelCalls := 0, reserveCalls := 0, brk := true } }] :=
  charging_stops_job w7Job 0 w7Env []
    { chargeInProgress := true, reservationInProgress := true } (by decide) rfl (by decide)

/-- Claim C8: in a cycle that reaches the re-reservation sequence (reservation
still in progress, not charging, socket available) in which any of its four
steps fails — payment-method fetch, order id, payment execution or reservation
creation — the loop produces exactly this one record: job stopped with one
failure notification (`renewFailed`), and the loop exits, so no subsequent
timer tick fires and the failed cycle is never retried, whatever environments
follow. -/
theorem failed_renewal_never_retried (job : RenewJob) (t0 : Int) (e : CycleEnv)
    (rest : List CycleEnv) (t : Txn)
    (hact : job.active = true) (htx : e.transaction = some t)
    (hch : t.chargeInProgress = false) (hres : t.reservationInProgress = true)
    (hav : socketAvailable e.conectores job.socketId = true)
    (hfail : e.silent.paymentOk = false ∨ e.silent.orderOk = false ∨
      e.silent.paymentSuccess = false ∨ e.silent.reserveOk = false) :
    autoRenewLoop job t0 (e :: rest) =
      [{ sleepStart := t0, fire := t0 + renewIntervalSeconds, env := e,
         out := { job := { job with active := false }, notes := [Note.renewFailed],
                  cancelCalls := 1,
                  reserveCalls := (ejecutar_reserva_silenciosa e.silent).reserveCalls,
                  brk := true } }] := by
  have hok := silent_fail e.silent hfail
  simp [autoRenewLoop, renewCycleBody, hact, htx, hch, hres, hav, hok]

/-- Witness for C8: cancel succeeds, payment of the re-reservation fails — the
job stops with one failure notification and no further tick fires even though
another cycle environment was available. -/
theorem failed_renewal_never_retried_witness :
    autoRenewLoop w7Job 0 [w8Env, w7Env] =
      [{ sleepStart := 0, fire := 0 + renewIntervalSeconds, env := w8Env,
         out := { job := { w7Job with active := false }, notes := [Note.renewFailed],
                  cancelCalls := 1,
                  reserveCalls := (ejecutar_reserva_silenciosa w8Env.silent).reserveCalls,
                  brk := true } }] :=
  failed_renewal_never_retried w7Job 0 w8Env [w7Env]
    { chargeInProgress := false, reservationInProgress := true }
    (by decide) rfl (by decide) (by decide) (by decide) (Or.inr (Or.inr (Or.inl (by decide))))

/-- Claim C6: for a renewal job whose `nextRenewalAt` is due no later than its
first timer fire (as `_ejecutar_reserva` arranges: it stamps `now + 14min` and
then starts the sleep), and non-negative real-time delays: every fire happens
exactly 14 minutes after its sleep began (the requested sleep interval),
every successful cycle advances `nextRenewalAt` to exactly its success time
(`fire + workDelay`) plus 14 minutes, and the timer never fires earlier than
the `nextRenewalAt` in force when its sleep began. -/
theorem renewal_cadence (envs : List CycleEnv) (job : RenewJob) (t0 : Int)
    (hw : ∀ e ∈ envs, 0 ≤ e.workDelay ∧ 0 ≤ e.postDelay)
    (hn : job.nextRenewalAt ≤ t0 + renewIntervalSeconds) :
    (∀ r ∈ autoRenewLoop job t0 envs, r.fire = r.sleepStart + renewIntervalSeconds) ∧
    (∀ r ∈ autoRenewLoop job t0 envs, r.out.brk = false →
      r.out.job.nextRenewalAt = r.fire + r.env.workDelay + renewIntervalSeconds) ∧
    firesNoEarlier job.nextRenewalAt (autoRenewLoop job t0 envs) = true := by
  induction envs generalizing job t0 with
  | nil => simp [autoRenewLoop, firesNoEarlier]
  | cons e rest ih =>
    by_cases hact : job.active
    · have hstep : autoRenewLoop job t0 (e :: rest) =
        { sleepStart := t0, fire := t0 + renewIntervalSeconds, env := e,
          out := renewCycleBody job (t0 + renewIntervalSeconds) e } ::
          (if (renewCycleBody job (t0 + renewIntervalSeconds) e).brk then []
           else autoRenewLoop (renewCycleBody job (t0 + renewIntervalSeconds) e).job
             (t0 + renewIntervalSeconds + e.workDelay + e.postDelay) rest) := by
        simp [autoRenewLoop, hact]
      rw [hstep]
      by_cases hbrk : (renewCycleBody job (t0 + renewIntervalSeconds) e).brk
      · rw [if_pos hbrk]
        refine ⟨?_, ?_, ?_⟩
        · intro r hr
          rcases List.mem_singleton.mp hr with h
          subst h
          rfl
        · intro r hr hb
          rcases List.mem_singleton.mp hr with h
          subst h
          rw [hbrk] at hb
          exact absurd hb (by simp)
        · simp [firesNoEarlier, hn]
      · rw [if_neg hbrk]
        have hbrk' : (renewCycleBody job (t0 + renewIntervalSeconds) e).brk = false := by
          simpa using hbrk
        obtain ⟨hnext, hactive⟩ :=
          renewCycleBody_continue job (t0 + renewIntervalSeconds) e hbrk'
        obtain ⟨hwd, hpd⟩ := hw e (List.mem_cons_self e rest)
        have hwr : ∀ x ∈ rest, 0 ≤ x.workDelay ∧ 0 ≤ x.postDelay :=
          fun x hx => hw x (List.mem_cons_of_mem e hx)
        have hn' : (renewCycleBody job (t0 + renewIntervalSeconds) e).job.nextRenewalAt ≤
            (t0 + renewIntervalSeconds + e.workDelay + e.postDelay) + renewIntervalSeconds := by
          rw [hnext]
          omega
        obtain ⟨ih1, ih2, ih3⟩ := ih (renewCycleBody job (t0 + renewIntervalSeconds) e).job
          (t0 + renewIntervalSeconds + e.workDelay + e.postDelay) hwr hn'
        refine ⟨?_, ?_, ?_⟩
        · intro r hr
          rcases List.mem_cons.mp hr with h | h
          · subst h
            rfl
          · exact ih1 r h
        · intro r hr hb
          rcases List.mem_cons.mp hr with h | h
          · subst h
            exact hnext
          · exact ih2 r h hb
        · simp only [firesNoEarlier, Bool.and_eq_true, decide_eq_true_eq]
          exact ⟨hn, ih3⟩
    · have hnil : autoRenewLoop job t0 (e :: rest) = [] := by
        simp [autoRenewLoop, hact]
      rw [hnil]
      simp [firesNoEarlier]

/-- Witness for C6 at a concrete successful cycle: the fire chain respects
`nextRenewalAt` and the success advances it to success time + 14 minutes. -/
theorem renewal_cadence_witness :
    firesNoEarlier w7Job.nextRenewalAt (autoRenewLoop w7Job 0 [w6Env]) = true ∧
    w6Record.out.job.nextRenewalAt =
      w6Record.fire + w6Record.env.workDelay + renewIntervalSeconds :=
  ⟨(renewal_cadence [w6Env] w7Job 0 (by decide) (by decide)).2.2,
   (renewal_cadence [w6Env] w7Job 0 (by decide) (by decide)).2.1 w6Record
     (by decide) (by decide)⟩
